import Mathlib

/-! # BLAKE3-Δ2 router (`network/blake3delta2_routing.go`) and its chain client

A shallow embedding of the Go program: the packet, router and route records, the
gate pipeline of `RoutePacket`, the latency table of `applyInterplanetaryLatency`
and the stub collaborators, followed by the properties of the routing contract.

Conventions of the embedding.

* `float64` is modelled by `Float64`: a sign, an integer significand and a binary
  exponent, with IEEE-754 round-to-nearest-even (`Float64.round`) applied wherever
  Go rounds (literals, `float64(int64)`, `*`).
* `time.Duration` and `time.Time` are integers counting nanoseconds.
* Go `error` values are modelled by their structure (which gate, which cause), not
  by the text `fmt.Errorf` renders.
* Everything outside the router that a call can observe (the attestation answer,
  the sigma reading, the wall clock, the BLAKE3 digest) is a field of
  `Collaborators`; `World` threads the clock position and the log of invocations.
-/

namespace Blake3Delta2

/-! ## float64 -/

/-- Number of binary digits of `n`, with `fuel` bounding the recursion. -/
def bitLenAux : Nat → Nat → Nat
  | 0, _ => 0
  | fuel + 1, n => if n = 0 then 0 else 1 + bitLenAux fuel (n / 2)

/-- Number of binary digits of `n` (`0` for `0`). -/
def bitLen (n : Nat) : Nat := bitLenAux n n

/-- An IEEE-754 binary64 value. `finite neg m e` denotes `(-1)^neg * m * 2^e`. -/
inductive Float64 where
  | finite (neg : Bool) (m : Nat) (e : Int)
  | inf (neg : Bool)
  | nan
deriving DecidableEq, Repr

namespace Float64

/-- Quotient `n / d` rounded to the nearest integer, ties to even. -/
def divRoundEven (n d : Nat) : Nat :=
  let q := n / d
  let r := n % d
  if d < 2 * r ∨ (2 * r = d ∧ q % 2 = 1) then q + 1 else q

/-- Binary exponent at which the positive rational `p / q` is rounded: the one that
leaves a 53-bit significand, but never below the subnormal exponent `-1074`. -/
def roundExp (p q : Nat) : Int :=
  let e0 : Int := (bitLen p : Int) - (bitLen q : Int) - 53
  let e1 : Int := if q * 2 ^ (e0 + 53).toNat ≤ p * 2 ^ (-(e0 + 53)).toNat then e0 + 1 else e0
  max e1 (-1074)

/-- Round-to-nearest-even of the rational `(-1)^neg * p / q` (`q ≠ 0`) to binary64. -/
def round (neg : Bool) (p q : Nat) : Float64 :=
  if p = 0 then finite neg 0 0
  else
    let e := roundExp p q
    let m := divRoundEven (p * 2 ^ (-e).toNat) (q * 2 ^ e.toNat)
    if 1024 < (bitLen m : Int) + e then inf neg else finite neg m e

/-- Conversion `float64(n)` of an `int64`. -/
def ofInt64 (n : Int) : Float64 := round (decide (n < 0)) n.natAbs 1

/-- IEEE-754 product, as computed by Go's `*` on `float64`. -/
def mul : Float64 → Float64 → Float64
  | nan, _ => nan
  | _, nan => nan
  | inf s, inf t => inf (xor s t)
  | inf s, finite t m _ => if m = 0 then nan else inf (xor s t)
  | finite s m _, inf t => if m = 0 then nan else inf (xor s t)
  | finite s m e, finite t n f =>
      round (xor s t) (m * n * 2 ^ (e + f).toNat) (2 ^ (-(e + f)).toNat)

/-- The integer `(-1)^neg * m * 2^(e - base)`, for `base ≤ e`. -/
def scaled (neg : Bool) (m : Nat) (e base : Int) : Int :=
  let v : Int := (m * 2 ^ (e - base).toNat : Nat)
  if neg then -v else v

/-- Go's `a > b` on `float64`: false whenever an operand is NaN. -/
def gt : Float64 → Float64 → Bool
  | nan, _ => false
  | _, nan => false
  | inf s, inf t => !s && t
  | inf s, finite _ _ _ => !s
  | finite _ _ _, inf t => t
  | finite s m e, finite t n f =>
      decide (scaled t n f (min e f) < scaled s m e (min e f))

/-- Conversion `int64(x)`: truncation toward zero. Go leaves the result of an
unrepresentable value to the implementation; this is amd64, which yields `-2^63`. -/
def toInt64 : Float64 → Int
  | nan => -(2 ^ 63)
  | inf _ => -(2 ^ 63)
  | finite neg m e =>
      let mag : Nat := m * 2 ^ e.toNat / 2 ^ (-e).toNat
      let v : Int := if neg then -(mag : Int) else (mag : Int)
      if -(2 ^ 63) ≤ v ∧ v < 2 ^ 63 then v else -(2 ^ 63)

/-- The rational a finite value denotes; `none` for an infinity and for NaN. -/
def toRat? : Float64 → Option ℚ
  | finite neg m e => some ((if neg then -1 else 1) * (m : ℚ) * (2 : ℚ) ^ e)
  | inf _ => none
  | nan => none

end Float64

/-! ## Data model -/

/-- A `[32]byte` digest, read as one big-endian number. -/
abbrev Hash32 := Fin (2 ^ 256)

/-- `time.Second`, in nanoseconds. -/
def Second : Int := 1000000000

/-- `time.Minute`, in nanoseconds. -/
def Minute : Int := 60 * Second

/-- The packet handed to `RoutePacket`. -/
structure InterplanetaryPacket where
  SourceNode : String
  DestinationNode : String
  AttestationProof : String
  Nonce : String
  Priority : String
deriving DecidableEq, Repr

/-- The route record `Δ2Route`. -/
structure Δ2Route where
  Path : List String
  Hash : Hash32
  Stability : Float64
  TTL : Int
  Latency : Int
deriving DecidableEq, Repr

namespace chain1337

/-- The chain client `chain1337.Client`. -/
structure Client where
  Url : String
deriving DecidableEq, Repr

/-- Constructor `chain1337.NewClient`. -/
def NewClient (url : String) : Client := { Url := url }

/-- The repository's `VerifyAttestation`: it answers `(true, nil)` whatever it is
given. The second component is the Go `error` (`none` for `nil`). -/
def Client.VerifyAttestation (_c : Client) (_source _dest _proof : String) :
    Bool × Option String :=
  (true, none)

end chain1337

/-- The router record `Δ2Router`. Go maps are association lists read with
`List.lookup`; `lastStabilityCheck` is left at Go's zero value by the constructor. -/
structure Δ2Router where
  princeKey : List (Fin 256)
  chainClient : chain1337.Client
  topology : List (String × List String)
  routingTable : List (String × Δ2Route)
  lastStabilityCheck : Int
  sigmaThreshold : Float64
deriving DecidableEq, Repr

/-- The zero `time.Time` (January 1, year 1), in nanoseconds from the Unix epoch. -/
def zeroTime : Int := -62135596800 * Second

/-- Constructor `NewΔ2Router`. -/
def NewΔ2Router (princeKey : List (Fin 256)) : Δ2Router :=
  { princeKey := princeKey
    chainClient := chain1337.NewClient "https://chain1337.sopa.space"
    topology := []
    routingTable := []
    lastStabilityCheck := zeroTime
    sigmaThreshold := Float64.round false 5 100000 }

/-! ## Errors, collaborators and the observable world -/

/-- The two ways `checkLyapunovStability` fails. -/
inductive StabilityError where
  | source (err : String)
  | aboveThreshold (sigma threshold : Float64)
deriving DecidableEq, Repr

/-- The three error returns of `RoutePacket`, by gate:
`"attestation inválida: %v"`, `"sistema instável: %v"`, `"rota viola topologia quântica"`. -/
inductive RouteError where
  | attestation (cause : String)
  | instability (cause : StabilityError)
  | topology
deriving DecidableEq, Repr

/-- What a routing call reads from outside the router. `verifier` stands for the
method `chainClient.VerifyAttestation`, `sigmaSource` for `getCurrentSigma`,
`clock n` is the reading of the `n`-th `time.Now()` and `blake3Sum256` is
`blake3.Sum256` of the bytes of its argument. -/
structure Collaborators where
  verifier : chain1337.Client → String → String → String → Bool × Option String
  sigmaSource : Δ2Router → Float64 × Option String
  clock : Nat → Int
  blake3Sum256 : String → Hash32

/-- One invocation made while routing. -/
inductive Call where
  | VerifyAttestation (source dest proof : String)
  | checkLyapunovStability
  | getCurrentSigma
  | calculateDeterministicRoute (source dest nonce : String)
  | timeNow
  | blake3Sum256 (data : String)
  | applyΔ2Transformation
  | hashToPath
  | calculateRouteStability
  | validateQuantumTopology (path : List String)
  | applyInterplanetaryLatency (priority : String)
deriving DecidableEq, Repr

/-- The part of the environment a call changes: how many clock readings were taken
and which invocations were made, oldest first. -/
structure World where
  ticks : Nat
  calls : List Call
deriving DecidableEq, Repr

/-- Record an invocation. -/
def World.enter (w : World) (c : Call) : World :=
  { w with calls := w.calls ++ [c] }

/-- The call `time.Now()`: the next reading of the clock. -/
def timeNow (c : Collaborators) (w : World) : Int × World :=
  (c.clock w.ticks, { ticks := w.ticks + 1, calls := w.calls ++ [Call.timeNow] })

/-! ## The router's methods -/

/-- The method `getCurrentSigma` of the repository: `(0.00001, nil)`. -/
def getCurrentSigma (_r : Δ2Router) : Float64 × Option String :=
  (Float64.round false 1 100000, none)

/-- The function `applyΔ2Transformation`: the identity. -/
def applyΔ2Transformation (hash : Hash32) : Hash32 := hash

/-- The method `hashToPath`: a constant path. -/
def hashToPath (_r : Δ2Router) (_hash : Hash32) : List String :=
  ["Earth", "Moon", "Mars"]

/-- The method `calculateRouteStability`: the constant `0.99`. -/
def calculateRouteStability (_r : Δ2Router) (_path : List String) : Float64 :=
  Float64.round false 99 100

/-- The method `validateQuantumTopology`: the constant `true`. -/
def validateQuantumTopology (_r : Δ2Router) (_path : List String) : Bool := true

/-- The verb `%d` of `fmt.Sprintf` on a non-negative integer. -/
def formatNat (n : Nat) : String :=
  if n = 0 then "0"
  else String.mk ((Nat.digits 10 n).reverse.map fun d => Char.ofNat (48 + d))

/-- The verb `%d` of `fmt.Sprintf` on an integer. -/
def formatInt (z : Int) : String :=
  if z < 0 then "-" ++ formatNat z.natAbs else formatNat z.natAbs

/-- The string `fmt.Sprintf("%s:%s:%s:%d", source, dest, nonce, t)` that
`calculateDeterministicRoute` hashes. -/
def canonicalString (source dest nonce : String) (t : Int) : String :=
  source ++ ":" ++ dest ++ ":" ++ nonce ++ ":" ++ formatInt t

/-- The method `calculateDeterministicRoute`. It reads the clock twice: once for
the hashed string and once for the TTL. -/
def calculateDeterministicRoute (c : Collaborators) (r : Δ2Router)
    (source dest nonce : String) (w : World) : Δ2Route × World :=
  let n0 := timeNow c w
  let data := canonicalString source dest nonce n0.1
  let w1 := n0.2.enter (Call.blake3Sum256 data)
  let hash := c.blake3Sum256 data
  let w2 := w1.enter Call.applyΔ2Transformation
  let Δ2hash := applyΔ2Transformation hash
  let w3 := w2.enter Call.hashToPath
  let path := hashToPath r Δ2hash
  let w4 := w3.enter Call.calculateRouteStability
  let stability := calculateRouteStability r path
  let n1 := timeNow c w4
  ({ Path := path, Hash := Δ2hash, Stability := stability,
     TTL := n1.1 + 5 * Minute, Latency := 0 }, n1.2)

/-- The method `checkLyapunovStability`: `none` is Go's `nil` error. -/
def checkLyapunovStability (c : Collaborators) (r : Δ2Router) (w : World) :
    Option StabilityError × World :=
  let w1 := w.enter Call.getCurrentSigma
  match c.sigmaSource r with
  | (_, some err) => (some (StabilityError.source err), w1)
  | (sigma, none) =>
    if sigma.gt r.sigmaThreshold then
      (some (StabilityError.aboveThreshold sigma r.sigmaThreshold), w1)
    else (none, w1)

/-- The method `applyInterplanetaryLatency`. -/
def applyInterplanetaryLatency (_r : Δ2Router) (route : Δ2Route) (priority : String) :
    Δ2Route :=
  let baseLatency : Int := 3500 * Second
  if priority = "emergency" then
    { route with Latency :=
        Float64.toInt64 (Float64.mul (Float64.ofInt64 baseLatency) (Float64.round false 1 2)) }
  else if priority = "consciousness" then
    { route with Latency :=
        Float64.toInt64 (Float64.mul (Float64.ofInt64 baseLatency) (Float64.round false 4 5)) }
  else if priority = "data" then
    { route with Latency := baseLatency }
  else
    { route with Latency :=
        Float64.toInt64 (Float64.mul (Float64.ofInt64 baseLatency) (Float64.round false 6 5)) }

deriving instance DecidableEq for Except

/-- What a call of `RoutePacket` leaves behind: the returned value, the router and
the world after the call. -/
structure Outcome where
  result : Except RouteError Δ2Route
  router : Δ2Router
  world : World

/-- The method `RoutePacket`. No statement of the Go method assigns to a field of
the router, so the router after the call is the router it was called on. -/
def RoutePacket (c : Collaborators) (r : Δ2Router) (packet : InterplanetaryPacket)
    (w : World) : Outcome :=
  let w1 := w.enter (Call.VerifyAttestation packet.SourceNode packet.DestinationNode
    packet.AttestationProof)
  match (c.verifier r.chainClient packet.SourceNode packet.DestinationNode
      packet.AttestationProof).2 with
  | some err => { result := Except.error (RouteError.attestation err), router := r, world := w1 }
  | none =>
    let s := checkLyapunovStability c r (w1.enter Call.checkLyapunovStability)
    match s.1 with
    | some err =>
      { result := Except.error (RouteError.instability err), router := r, world := s.2 }
    | none =>
      let d := calculateDeterministicRoute c r packet.SourceNode packet.DestinationNode
        packet.Nonce (s.2.enter (Call.calculateDeterministicRoute packet.SourceNode
          packet.DestinationNode packet.Nonce))
      let w2 := d.2.enter (Call.validateQuantumTopology d.1.Path)
      if !validateQuantumTopology r d.1.Path then
        { result := Except.error RouteError.topology, router := r, world := w2 }
      else
        { result := Except.ok (applyInterplanetaryLatency r d.1 packet.Priority),
          router := r
          world := w2.enter (Call.applyInterplanetaryLatency packet.Priority) }

/-- The collaborators the repository itself ships: the chain client that answers
`(true, nil)` and the sigma source that answers `(0.00001, nil)`. -/
def repoCollaborators (clock : Nat → Int) (blake3Sum256 : String → Hash32) : Collaborators :=
  { verifier := chain1337.Client.VerifyAttestation
    sigmaSource := getCurrentSigma
    clock := clock
    blake3Sum256 := blake3Sum256 }

/-- The world before any call. -/
def World.start : World := { ticks := 0, calls := [] }

/-! ## Specification-side definitions -/

/-- The priority table as the specification words it: the factor applied to the base
delay. -/
def specPriorityFactor (priority : String) : ℚ :=
  if priority = "emergency" then 1 / 2
  else if priority = "consciousness" then 4 / 5
  else if priority = "data" then 1
  else 6 / 5

/-- Whether `a → b` is an edge: `b` is listed among the neighbours the adjacency
mapping holds for `a` (a missing key reads as no neighbours, as in Go). -/
def isEdge (topology : List (String × List String)) (a b : String) : Bool :=
  match topology.lookup a with
  | some neighbours => decide (b ∈ neighbours)
  | none => false

/-- Whether every consecutive pair of `path` is an edge of `topology`. -/
def allConsecutiveEdges (topology : List (String × List String)) : List String → Bool
  | a :: b :: rest => isEdge topology a b && allConsecutiveEdges topology (b :: rest)
  | _ => true

/-- Validation as the specification words it: at least two nodes, and every
consecutive pair an edge of the adjacency mapping. -/
def specValidate (topology : List (String × List String)) (path : List String) : Bool :=
  decide (2 ≤ path.length) && allConsecutiveEdges topology path

/-! ## Sample inputs -/

/-- A clock for the examples: the `n`-th reading is `1700000000000000000 + n` ns. -/
def sampleClock (n : Nat) : Int := 1700000000000000000 + n

/-- A digest function for the examples: the length of the hashed string. -/
def sampleDigest (data : String) : Hash32 := Fin.ofNat data.length

/-- A packet for the examples. -/
def samplePacket : InterplanetaryPacket :=
  { SourceNode := "Venus", DestinationNode := "Jupiter", AttestationProof := "proof",
    Nonce := "n-1", Priority := "emergency" }

/-- A verifier that fails with an error. -/
def failingVerifier (_c : chain1337.Client) (_source _dest _proof : String) :
    Bool × Option String :=
  (false, some "chain unreachable")

/-- A sigma source that reports `0.0001` with a `nil` error. -/
def unstableSigma (_r : Δ2Router) : Float64 × Option String :=
  (Float64.round false 1 10000, none)

/-- Collaborators whose sigma source reports `0.0001`; the verifier is the
repository's. -/
def unstableCollaborators : Collaborators :=
  { verifier := chain1337.Client.VerifyAttestation, sigmaSource := unstableSigma,
    clock := sampleClock, blake3Sum256 := sampleDigest }

/-- Collaborators whose verifier fails, with a sigma source above the threshold. -/
def failingCollaborators : Collaborators :=
  { verifier := failingVerifier, sigmaSource := unstableSigma, clock := sampleClock,
    blake3Sum256 := sampleDigest }

/-- Collaborators of the repository, on the sample clock and digest. -/
def sampleCollaborators : Collaborators := repoCollaborators sampleClock sampleDigest

/-- The route `RoutePacket` returns for `samplePacket` under `sampleCollaborators`. -/
def sampleRoute : Δ2Route :=
  { Path := ["Earth", "Moon", "Mars"]
    Hash := sampleDigest "Venus:Jupiter:n-1:1700000000000000000"
    Stability := Float64.round false 99 100
    TTL := 1700000000000000001 + 5 * Minute
    Latency := 1750 * Second }

/-- A router whose routing table holds one entry. -/
def cachedRouter : Δ2Router :=
  { NewΔ2Router [] with routingTable := [("k", sampleRoute)] }

/-- A topology holding the two edges of the constant path. -/
def earthMoonMars : List (String × List String) :=
  [("Earth", ["Moon"]), ("Moon", ["Earth", "Mars"]), ("Mars", ["Moon"])]

/-- A router whose topology holds the two edges of the constant path. -/
def earthMoonMarsRouter : Δ2Router :=
  { NewΔ2Router [] with topology := earthMoonMars }

/-- A packet from `Earth` to `Mars`. -/
def earthMarsPacket : InterplanetaryPacket :=
  { SourceNode := "Earth", DestinationNode := "Mars", AttestationProof := "proof",
    Nonce := "n-2", Priority := "data" }

/-- A clock that stands still: every reading is the same instant. -/
def frozenClock (_n : Nat) : Int := 1700000000000000000

/-- Collaborators of the repository on the frozen clock. -/
def frozenCollaborators : Collaborators := repoCollaborators frozenClock sampleDigest

/-- A packet whose source, destination, proof and nonce are empty. -/
def emptyPacket : InterplanetaryPacket :=
  { SourceNode := "", DestinationNode := "", AttestationProof := "", Nonce := "",
    Priority := "data" }

/-- A world in which the clock was already read five times. -/
def laterWorld : World := { ticks := 5, calls := [] }

/-! ## Properties -/

/-- The router after `RoutePacket` is the router before it, on every return. -/
theorem RoutePacket_router (c : Collaborators) (r : Δ2Router) (packet : InterplanetaryPacket)
    (w : World) : (RoutePacket c r packet w).router = r := by
  unfold RoutePacket
  split
  · rfl
  · dsimp only
    split
    · rfl
    · split <;> rfl

/-- The attestation gate of `RoutePacket` looks at the error only. -/
theorem RoutePacket_of_verifier_error (c : Collaborators) (r : Δ2Router)
    (packet : InterplanetaryPacket) (w : World) (err : String)
    (h : (c.verifier r.chainClient packet.SourceNode packet.DestinationNode
      packet.AttestationProof).2 = some err) :
    RoutePacket c r packet w =
      { result := Except.error (RouteError.attestation err), router := r,
        world := w.enter (Call.VerifyAttestation packet.SourceNode packet.DestinationNode
          packet.AttestationProof) } := by
  unfold RoutePacket
  rw [h]

/-- The stability check, when the source reports `sigma` with a `nil` error. -/
theorem checkLyapunovStability_of_sigma (c : Collaborators) (r : Δ2Router) (w : World)
    (sigma : Float64) (hs : c.sigmaSource r = (sigma, none)) :
    checkLyapunovStability c r w =
      (if sigma.gt r.sigmaThreshold then
        some (StabilityError.aboveThreshold sigma r.sigmaThreshold) else none,
       w.enter Call.getCurrentSigma) := by
  unfold checkLyapunovStability
  rw [hs]
  by_cases hgt : sigma.gt r.sigmaThreshold = true <;> simp [hgt]

/-- The stability gate of `RoutePacket`, reached with a `nil` attestation error. -/
theorem RoutePacket_of_unstable (c : Collaborators) (r : Δ2Router)
    (packet : InterplanetaryPacket) (w : World) (sigma : Float64)
    (ha : (c.verifier r.chainClient packet.SourceNode packet.DestinationNode
      packet.AttestationProof).2 = none)
    (hs : c.sigmaSource r = (sigma, none)) (hgt : sigma.gt r.sigmaThreshold = true) :
    RoutePacket c r packet w =
      { result := Except.error (RouteError.instability
          (StabilityError.aboveThreshold sigma r.sigmaThreshold))
        router := r
        world := ((w.enter (Call.VerifyAttestation packet.SourceNode packet.DestinationNode
          packet.AttestationProof)).enter Call.checkLyapunovStability).enter
            Call.getCurrentSigma } := by
  unfold RoutePacket
  rw [ha]
  simp only [checkLyapunovStability_of_sigma c r _ sigma hs, hgt, if_true]

/-- The latency annotation leaves the path alone. -/
theorem applyInterplanetaryLatency_Path (r : Δ2Router) (route : Δ2Route) (priority : String) :
    (applyInterplanetaryLatency r route priority).Path = route.Path := by
  unfold applyInterplanetaryLatency
  split_ifs <;> rfl

/-- The path of every candidate route is the constant of `hashToPath`. -/
theorem calculateDeterministicRoute_Path (c : Collaborators) (r : Δ2Router)
    (source dest nonce : String) (w : World) :
    (calculateDeterministicRoute c r source dest nonce w).1.Path = ["Earth", "Moon", "Mars"] :=
  rfl

/-- A successful `RoutePacket` returns the annotated candidate route. -/
theorem RoutePacket_ok_route (c : Collaborators) (r : Δ2Router) (packet : InterplanetaryPacket)
    (w : World) (route : Δ2Route) (h : (RoutePacket c r packet w).result = Except.ok route) :
    ∃ w1 : World, route = applyInterplanetaryLatency r
      (calculateDeterministicRoute c r packet.SourceNode packet.DestinationNode packet.Nonce
        w1).1 packet.Priority := by
  unfold RoutePacket at h
  split at h
  · simp at h
  · dsimp only at h
    split at h
    · simp at h
    · split at h
      · simp at h
      · simp only [Except.ok.injEq] at h
        exact ⟨_, h.symm⟩

/-- A successful `RoutePacket` returns the constant path. -/
theorem RoutePacket_ok_Path (c : Collaborators) (r : Δ2Router) (packet : InterplanetaryPacket)
    (w : World) (route : Δ2Route) (h : (RoutePacket c r packet w).result = Except.ok route) :
    route.Path = ["Earth", "Moon", "Mars"] := by
  obtain ⟨w1, hroute⟩ := RoutePacket_ok_route c r packet w route h
  rw [hroute, applyInterplanetaryLatency_Path, calculateDeterministicRoute_Path]

/-- The candidate route, field by field. -/
theorem calculateDeterministicRoute_fst (c : Collaborators) (r : Δ2Router)
    (source dest nonce : String) (w : World) :
    (calculateDeterministicRoute c r source dest nonce w).1 =
      { Path := ["Earth", "Moon", "Mars"]
        Hash := c.blake3Sum256 (canonicalString source dest nonce (c.clock w.ticks))
        Stability := Float64.round false 99 100
        TTL := c.clock (w.ticks + 1) + 5 * Minute
        Latency := 0 } :=
  rfl

/-- Both gates passed: `RoutePacket` returns the annotated candidate route. -/
theorem RoutePacket_of_stable (c : Collaborators) (r : Δ2Router)
    (packet : InterplanetaryPacket) (w : World) (sigma : Float64)
    (ha : (c.verifier r.chainClient packet.SourceNode packet.DestinationNode
      packet.AttestationProof).2 = none)
    (hs : c.sigmaSource r = (sigma, none)) (hle : sigma.gt r.sigmaThreshold = false) :
    (RoutePacket c r packet w).result =
      Except.ok (applyInterplanetaryLatency r
        { Path := ["Earth", "Moon", "Mars"]
          Hash := c.blake3Sum256 (canonicalString packet.SourceNode packet.DestinationNode
            packet.Nonce (c.clock w.ticks))
          Stability := Float64.round false 99 100
          TTL := c.clock (w.ticks + 1) + 5 * Minute
          Latency := 0 } packet.Priority) := by
  unfold RoutePacket
  rw [ha]
  simp only [checkLyapunovStability_of_sigma c r _ sigma hs, hle]
  rfl

set_option maxRecDepth 4000 in
/-- The literals of the latency table as binary64 values: `0.5` is `2^52 * 2^-53`,
`0.8` is `0x1.999999999999ap-1` and `1.2` is `0x1.3333333333333p+0`; the base
latency `3500 s` converts to `float64` without rounding. -/
theorem Float64.round_table_literals :
    Float64.round false 1 2 = Float64.finite false 4503599627370496 (-53) ∧
    Float64.round false 4 5 = Float64.finite false 0x1999999999999a (-53) ∧
    Float64.round false 6 5 = Float64.finite false 0x13333333333333 (-52) ∧
    Float64.ofInt64 (3500 * Second) = Float64.finite false (3500000000000 * 2 ^ 11) (-11) := by
  decide

set_option maxRecDepth 4000 in
/-- The product `float64(3500 s) * 0.5`, converted back to a duration. -/
theorem latency_emergency :
    Float64.toInt64 (Float64.mul (Float64.ofInt64 (3500 * Second)) (Float64.round false 1 2)) =
      1750 * Second := by
  decide

set_option maxRecDepth 4000 in
/-- The product `float64(3500 s) * 0.8`, converted back to a duration. -/
theorem latency_consciousness :
    Float64.toInt64 (Float64.mul (Float64.ofInt64 (3500 * Second)) (Float64.round false 4 5)) =
      2800 * Second := by
  decide

set_option maxRecDepth 4000 in
/-- The product `float64(3500 s) * 1.2`, converted back to a duration. -/
theorem latency_default :
    Float64.toInt64 (Float64.mul (Float64.ofInt64 (3500 * Second)) (Float64.round false 6 5)) =
      4200 * Second := by
  decide

/-- The latency set by `applyInterplanetaryLatency`, by priority. -/
theorem applyInterplanetaryLatency_Latency (r : Δ2Router) (route : Δ2Route)
    (priority : String) :
    (applyInterplanetaryLatency r route priority).Latency =
      if priority = "emergency" then 1750 * Second
      else if priority = "consciousness" then 2800 * Second
      else if priority = "data" then 3500 * Second
      else 4200 * Second := by
  unfold applyInterplanetaryLatency
  split_ifs
  · dsimp only
    rw [latency_emergency]
  · dsimp only
    rw [latency_consciousness]
  · rfl
  · dsimp only
    rw [latency_default]

/-- The string hashed for `samplePacket` at the first reading of `sampleClock`. -/
theorem canonicalString_samplePacket :
    canonicalString samplePacket.SourceNode samplePacket.DestinationNode samplePacket.Nonce
      (sampleClock 0) = "Venus:Jupiter:n-1:1700000000000000000" := by
  simp [canonicalString, formatInt, formatNat, sampleClock, samplePacket]

/-! ### C2: the stability gate -/

/-- No `float64` is greater than itself. -/
theorem Float64.gt_self (x : Float64) : x.gt x = false := by
  cases x with
  | finite neg m e => simp [Float64.gt]
  | inf neg => cases neg <;> rfl
  | nan => rfl

/-- C2: when the stability source reports `sigma` with a `nil` error,
`checkLyapunovStability` returns an error exactly when `sigma > threshold`, so a
sigma equal to the threshold passes; once the attestation error is `nil`, a sigma
above the threshold makes `RoutePacket` return the instability error; and
`sigma = 0.0001` against the threshold `0.00005` is rejected. -/
theorem checkLyapunovStability_error_iff_above (c : Collaborators) (r : Δ2Router)
    (packet : InterplanetaryPacket) (w : World) (sigma : Float64)
    (hs : c.sigmaSource r = (sigma, none)) :
    ((checkLyapunovStability c r w).1.isSome = true ↔ sigma.gt r.sigmaThreshold = true) ∧
    (sigma = r.sigmaThreshold → (checkLyapunovStability c r w).1 = none) ∧
    ((c.verifier r.chainClient packet.SourceNode packet.DestinationNode
        packet.AttestationProof).2 = none →
      sigma.gt r.sigmaThreshold = true →
      (RoutePacket c r packet w).result = Except.error (RouteError.instability
        (StabilityError.aboveThreshold sigma r.sigmaThreshold))) ∧
    (sigma = Float64.round false 1 10000 → r.sigmaThreshold = Float64.round false 5 100000 →
      (checkLyapunovStability c r w).1 =
        some (StabilityError.aboveThreshold sigma r.sigmaThreshold)) := by
  rw [checkLyapunovStability_of_sigma c r w sigma hs]
  refine ⟨?_, ?_, ?_, ?_⟩
  · by_cases hgt : sigma.gt r.sigmaThreshold = true <;> simp [hgt]
  · intro heq
    rw [← heq, Float64.gt_self]
    rfl
  · intro ha hgt
    rw [RoutePacket_of_unstable c r packet w sigma ha hs hgt]
  · intro h1 h2
    have hgt : sigma.gt r.sigmaThreshold = true := by
      rw [h1, h2]
      decide
    simp [hgt]

set_option maxRecDepth 4000 in
/-- C2 at a concrete input: the constructor's threshold `0.00005`, a source reporting
`0.0001`. -/
theorem checkLyapunovStability_error_iff_above_witness :
    unstableCollaborators.sigmaSource (NewΔ2Router []) = (Float64.round false 1 10000, none) ∧
    (RoutePacket unstableCollaborators (NewΔ2Router []) samplePacket World.start).result =
      Except.error (RouteError.instability (StabilityError.aboveThreshold
        (Float64.round false 1 10000) (Float64.round false 5 100000))) :=
  ⟨rfl, (checkLyapunovStability_error_iff_above unstableCollaborators (NewΔ2Router [])
    samplePacket World.start (Float64.round false 1 10000) rfl).2.2.1 rfl (by decide)⟩

/-! ### C4: the stability gate comes before the derivation -/

/-- C4: with a `nil` attestation error and a sigma above the threshold,
`RoutePacket` returns the instability error; the invocations made are
`VerifyAttestation`, `checkLyapunovStability` and `getCurrentSigma` only, so
`calculateDeterministicRoute` does not run and the clock is not read; and the result
is the same for every nonce, clock and digest function. -/
theorem RoutePacket_instability_before_derivation (c : Collaborators) (r : Δ2Router)
    (packet : InterplanetaryPacket) (w : World) (sigma : Float64)
    (ha : (c.verifier r.chainClient packet.SourceNode packet.DestinationNode
      packet.AttestationProof).2 = none)
    (hs : c.sigmaSource r = (sigma, none)) (hgt : sigma.gt r.sigmaThreshold = true) :
    (RoutePacket c r packet w).result = Except.error (RouteError.instability
      (StabilityError.aboveThreshold sigma r.sigmaThreshold)) ∧
    (RoutePacket c r packet w).world.calls =
      w.calls ++ [Call.VerifyAttestation packet.SourceNode packet.DestinationNode
        packet.AttestationProof, Call.checkLyapunovStability, Call.getCurrentSigma] ∧
    (RoutePacket c r packet w).world.ticks = w.ticks ∧
    ∀ (nonce : String) (clock : Nat → Int) (blake3Sum256 : String → Hash32),
      (RoutePacket { c with clock := clock, blake3Sum256 := blake3Sum256 } r
        { packet with Nonce := nonce } w).result = (RoutePacket c r packet w).result := by
  rw [RoutePacket_of_unstable c r packet w sigma ha hs hgt]
  refine ⟨rfl, ?_, rfl, ?_⟩
  · simp [World.enter]
  · intro nonce clock blake3Sum256
    rw [RoutePacket_of_unstable { c with clock := clock, blake3Sum256 := blake3Sum256 } r
      { packet with Nonce := nonce } w sigma ha hs hgt]

set_option maxRecDepth 4000 in
/-- C4 at a concrete input: the repository's verifier, a source reporting `0.0001`. -/
theorem RoutePacket_instability_before_derivation_witness :
    (unstableCollaborators.verifier (NewΔ2Router []).chainClient samplePacket.SourceNode
      samplePacket.DestinationNode samplePacket.AttestationProof).2 = none ∧
    (RoutePacket unstableCollaborators (NewΔ2Router []) samplePacket World.start).world.calls =
      [Call.VerifyAttestation "Venus" "Jupiter" "proof", Call.checkLyapunovStability,
        Call.getCurrentSigma] ∧
    (RoutePacket unstableCollaborators (NewΔ2Router []) samplePacket World.start).world.ticks =
      0 :=
  ⟨rfl, (RoutePacket_instability_before_derivation unstableCollaborators (NewΔ2Router [])
      samplePacket World.start (Float64.round false 1 10000) rfl rfl (by decide)).2.1,
    (RoutePacket_instability_before_derivation unstableCollaborators (NewΔ2Router [])
      samplePacket World.start (Float64.round false 1 10000) rfl rfl (by decide)).2.2.1⟩

/-! ### C5: the latency table -/

/-- C5: `applyInterplanetaryLatency` sets the latency to 1750 s, 2800 s, 3500 s or
4200 s by priority, every string outside the table (the empty one and
`"unknown-value"` among them) getting 4200 s; as a number that is exactly the base
delay of 3500 s times the factor of the table. -/
theorem applyInterplanetaryLatency_table (r : Δ2Router) (route : Δ2Route) (priority : String) :
    (applyInterplanetaryLatency r route priority).Latency =
      (if priority = "emergency" then 1750 * Second
       else if priority = "consciousness" then 2800 * Second
       else if priority = "data" then 3500 * Second
       else 4200 * Second) ∧
    ((applyInterplanetaryLatency r route priority).Latency : ℚ) =
      ((3500 * Second : Int) : ℚ) * specPriorityFactor priority ∧
    (applyInterplanetaryLatency r route "").Latency = 4200 * Second ∧
    (applyInterplanetaryLatency r route "unknown-value").Latency = 4200 * Second := by
  refine ⟨applyInterplanetaryLatency_Latency r route priority, ?_, ?_, ?_⟩
  · rw [applyInterplanetaryLatency_Latency]
    unfold specPriorityFactor Second
    split_ifs <;> norm_num
  · rw [applyInterplanetaryLatency_Latency]
    simp
  · rw [applyInterplanetaryLatency_Latency]
    simp

/-! ### C6 and C7: the routing table -/

set_option maxRecDepth 8000 in
/-- On a fresh router with the repository's collaborators, `RoutePacket` returns
`sampleRoute` for `samplePacket`. -/
theorem RoutePacket_samplePacket :
    (RoutePacket sampleCollaborators (NewΔ2Router []) samplePacket World.start).result =
      Except.ok sampleRoute := by
  rw [RoutePacket_of_stable sampleCollaborators (NewΔ2Router []) samplePacket World.start
    (Float64.round false 1 100000) rfl rfl (by decide)]
  show Except.ok (applyInterplanetaryLatency _
    { Path := _, Hash := sampleDigest (canonicalString samplePacket.SourceNode
        samplePacket.DestinationNode samplePacket.Nonce (sampleClock 0)),
      Stability := _, TTL := _, Latency := _ } "emergency") = _
  rw [canonicalString_samplePacket]
  decide

/-- C6, refuted on the code: on a fresh router (whose routing table holds no entry,
live or expired) `RoutePacket` succeeds and the routing table afterwards is still
empty, so the returned route is under no key of it. -/
theorem RoutePacket_success_leaves_table_empty :
    (RoutePacket sampleCollaborators (NewΔ2Router []) samplePacket World.start).result =
      Except.ok sampleRoute ∧
    (NewΔ2Router []).routingTable = [] ∧
    (RoutePacket sampleCollaborators (NewΔ2Router []) samplePacket World.start).router.routingTable
      = [] :=
  ⟨RoutePacket_samplePacket, rfl, by rw [RoutePacket_router]; rfl⟩

/-- C6 as amended: when `RoutePacket` succeeds the routing table is the mapping it was
before the call, so for every way `key` of turning a fingerprint into a map key the
returned route is under the key of its fingerprint afterwards exactly when it was
there before. -/
theorem RoutePacket_success_table_unchanged (key : Hash32 → String) (c : Collaborators)
    (r : Δ2Router) (packet : InterplanetaryPacket) (w : World) (route : Δ2Route)
    (_h : (RoutePacket c r packet w).result = Except.ok route) :
    (RoutePacket c r packet w).router.routingTable = r.routingTable ∧
    ((RoutePacket c r packet w).router.routingTable.lookup (key route.Hash) = some route ↔
      r.routingTable.lookup (key route.Hash) = some route) := by
  rw [RoutePacket_router]
  exact ⟨rfl, Iff.rfl⟩

/-- C6 as amended, at a concrete input: a fresh router and the sample packet. -/
theorem RoutePacket_success_table_unchanged_witness :
    (RoutePacket sampleCollaborators (NewΔ2Router []) samplePacket World.start).result =
      Except.ok sampleRoute ∧
    (RoutePacket sampleCollaborators (NewΔ2Router []) samplePacket World.start).router.routingTable
      = (NewΔ2Router []).routingTable :=
  ⟨RoutePacket_samplePacket,
    (RoutePacket_success_table_unchanged (fun h => toString h.val) sampleCollaborators
      (NewΔ2Router []) samplePacket World.start sampleRoute RoutePacket_samplePacket).1⟩

/-- C7: when `RoutePacket` returns an error, whichever gate raised it, the routing
table after the call is the routing table before it. -/
theorem RoutePacket_error_table_unchanged (c : Collaborators) (r : Δ2Router)
    (packet : InterplanetaryPacket) (w : World) (e : RouteError)
    (_h : (RoutePacket c r packet w).result = Except.error e) :
    (RoutePacket c r packet w).router.routingTable = r.routingTable := by
  rw [RoutePacket_router]

/-- C7 at a concrete input: the verifier fails on a router with one cached route. -/
theorem RoutePacket_error_table_unchanged_witness :
    (RoutePacket failingCollaborators cachedRouter samplePacket World.start).result =
      Except.error (RouteError.attestation "chain unreachable") ∧
    (RoutePacket failingCollaborators cachedRouter samplePacket World.start).router.routingTable
      = [("k", sampleRoute)] :=
  ⟨rfl, RoutePacket_error_table_unchanged failingCollaborators cachedRouter samplePacket
    World.start (RouteError.attestation "chain unreachable") rfl⟩

/-! ### C8, C9 and C10: the path and the topology -/

/-- C8, refuted on the code: the empty path and a single-node path are accepted,
though neither has two nodes; so is a two-node path whose edge the topology lacks. -/
theorem validateQuantumTopology_accepts_short_paths :
    validateQuantumTopology (NewΔ2Router []) [] = true ∧
    specValidate (NewΔ2Router []).topology [] = false ∧
    validateQuantumTopology (NewΔ2Router []) ["Earth"] = true ∧
    specValidate (NewΔ2Router []).topology ["Earth"] = false ∧
    validateQuantumTopology (NewΔ2Router []) ["Earth", "Moon"] = true ∧
    specValidate (NewΔ2Router []).topology ["Earth", "Moon"] = false := by
  decide

/-- C8 as amended: `validateQuantumTopology` is true for every router, whatever its
topology, and every path; in particular wherever the specified validation is
true. -/
theorem validateQuantumTopology_always_true (r : Δ2Router) (path : List String) :
    validateQuantumTopology r path = true ∧
    specValidate r.topology path ≤ validateQuantumTopology r path :=
  ⟨rfl, Bool.le_true _⟩

/-- C9, refuted on the code: a fresh router has an empty topology, `RoutePacket`
succeeds on it, and the first pair of the returned path is not an edge of it. -/
theorem RoutePacket_returns_path_outside_topology :
    (RoutePacket sampleCollaborators (NewΔ2Router []) samplePacket World.start).result =
      Except.ok sampleRoute ∧
    sampleRoute.Path = ["Earth", "Moon", "Mars"] ∧
    isEdge (NewΔ2Router []).topology "Earth" "Moon" = false ∧
    allConsecutiveEdges (NewΔ2Router []).topology sampleRoute.Path = false :=
  ⟨RoutePacket_samplePacket, rfl, by decide, by decide⟩

/-- C9 as amended: if `RoutePacket` returns a route, its path is
`["Earth", "Moon", "Mars"]` whatever the topology holds, and every consecutive pair of
it is an edge of the router's topology exactly when that topology has the edges
`Earth → Moon` and `Moon → Mars`. -/
theorem RoutePacket_path_edges_iff (c : Collaborators) (r : Δ2Router)
    (packet : InterplanetaryPacket) (w : World) (route : Δ2Route)
    (h : (RoutePacket c r packet w).result = Except.ok route) :
    route.Path = ["Earth", "Moon", "Mars"] ∧
    (allConsecutiveEdges r.topology route.Path = true ↔
      isEdge r.topology "Earth" "Moon" = true ∧ isEdge r.topology "Moon" "Mars" = true) := by
  have hp := RoutePacket_ok_Path c r packet w route h
  refine ⟨hp, ?_⟩
  rw [hp]
  simp [allConsecutiveEdges]

set_option maxRecDepth 8000 in
/-- On `earthMoonMarsRouter` with the repository's collaborators, `RoutePacket`
returns `sampleRoute` for `samplePacket`. -/
theorem RoutePacket_earthMoonMarsRouter :
    (RoutePacket sampleCollaborators earthMoonMarsRouter samplePacket World.start).result =
      Except.ok sampleRoute := by
  rw [RoutePacket_of_stable sampleCollaborators earthMoonMarsRouter samplePacket World.start
    (Float64.round false 1 100000) rfl rfl (by decide)]
  show Except.ok (applyInterplanetaryLatency _
    { Path := _, Hash := sampleDigest (canonicalString samplePacket.SourceNode
        samplePacket.DestinationNode samplePacket.Nonce (sampleClock 0)),
      Stability := _, TTL := _, Latency := _ } "emergency") = _
  rw [canonicalString_samplePacket]
  decide

/-- C9 as amended, at a concrete input: a topology with both edges, on which the
returned path lies inside the topology. -/
theorem RoutePacket_path_edges_iff_witness :
    (RoutePacket sampleCollaborators earthMoonMarsRouter samplePacket World.start).result =
      Except.ok sampleRoute ∧
    (allConsecutiveEdges earthMoonMarsRouter.topology sampleRoute.Path = true ↔
      isEdge earthMoonMarsRouter.topology "Earth" "Moon" = true ∧
        isEdge earthMoonMarsRouter.topology "Moon" "Mars" = true) :=
  ⟨RoutePacket_earthMoonMarsRouter,
    (RoutePacket_path_edges_iff sampleCollaborators earthMoonMarsRouter samplePacket
      World.start sampleRoute RoutePacket_earthMoonMarsRouter).2⟩

/-- C10, refuted on the code: for a packet from `Venus` to `Jupiter`, `RoutePacket`
succeeds and the returned path starts at `Earth` and ends at `Mars`. -/
theorem RoutePacket_path_ignores_endpoints :
    (RoutePacket sampleCollaborators (NewΔ2Router []) samplePacket World.start).result =
      Except.ok sampleRoute ∧
    samplePacket.SourceNode = "Venus" ∧ samplePacket.DestinationNode = "Jupiter" ∧
    sampleRoute.Path.head? = some "Earth" ∧ sampleRoute.Path.getLast? = some "Mars" ∧
    sampleRoute.Path.head? ≠ some samplePacket.SourceNode ∧
    sampleRoute.Path.getLast? ≠ some samplePacket.DestinationNode :=
  ⟨RoutePacket_samplePacket, rfl, rfl, rfl, rfl, by decide, by decide⟩

/-- C10 as amended: for every packet on which `RoutePacket` succeeds the returned
path is non-empty, being `["Earth", "Moon", "Mars"]`; its first element is the
packet's source exactly when the source is `"Earth"`, and its last element is the
packet's destination exactly when the destination is `"Mars"`. -/
theorem RoutePacket_path_endpoints (c : Collaborators) (r : Δ2Router)
    (packet : InterplanetaryPacket) (w : World) (route : Δ2Route)
    (h : (RoutePacket c r packet w).result = Except.ok route) :
    route.Path ≠ [] ∧
    (route.Path.head? = some packet.SourceNode ↔ packet.SourceNode = "Earth") ∧
    (route.Path.getLast? = some packet.DestinationNode ↔ packet.DestinationNode = "Mars") := by
  have hp := RoutePacket_ok_Path c r packet w route h
  rw [hp]
  refine ⟨by simp, ?_, ?_⟩
  · simp [eq_comm]
  · simp [eq_comm]

set_option maxRecDepth 8000 in
/-- C10 as amended, at a concrete input: a packet from `Earth` to `Mars`, whose
endpoints the returned path does match. -/
theorem RoutePacket_path_endpoints_witness :
    ∃ route : Δ2Route,
      (RoutePacket sampleCollaborators (NewΔ2Router []) earthMarsPacket World.start).result =
        Except.ok route ∧
      route.Path ≠ [] ∧
      (route.Path.head? = some earthMarsPacket.SourceNode ↔
        earthMarsPacket.SourceNode = "Earth") ∧
      (route.Path.getLast? = some earthMarsPacket.DestinationNode ↔
        earthMarsPacket.DestinationNode = "Mars") :=
  ⟨_, RoutePacket_of_stable sampleCollaborators (NewΔ2Router []) earthMarsPacket World.start
      (Float64.round false 1 100000) rfl rfl (by decide),
    RoutePacket_path_endpoints sampleCollaborators (NewΔ2Router []) earthMarsPacket
      World.start _ (RoutePacket_of_stable sampleCollaborators (NewΔ2Router [])
        earthMarsPacket World.start (Float64.round false 1 100000) rfl rfl (by decide))⟩

/-! ### C11: determinism of the derivation -/

/-- C11: two evaluations of `calculateDeterministicRoute` on the same source,
destination and nonce whose clock reading for the hashed string is the same instant
yield the same fingerprint and the same path, whichever routers and worlds they run
in, as long as both use the same digest function. -/
theorem calculateDeterministicRoute_deterministic (c1 c2 : Collaborators) (r1 r2 : Δ2Router)
    (source dest nonce : String) (w1 w2 : World)
    (hdigest : c1.blake3Sum256 = c2.blake3Sum256)
    (htime : c1.clock w1.ticks = c2.clock w2.ticks) :
    (calculateDeterministicRoute c1 r1 source dest nonce w1).1.Hash =
      (calculateDeterministicRoute c2 r2 source dest nonce w2).1.Hash ∧
    (calculateDeterministicRoute c1 r1 source dest nonce w1).1.Path =
      (calculateDeterministicRoute c2 r2 source dest nonce w2).1.Path := by
  rw [calculateDeterministicRoute_fst, calculateDeterministicRoute_fst]
  simp only [hdigest, htime, and_self]

/-- C11 at a concrete input: the same derivation at two positions of a frozen clock,
on two routers. -/
theorem calculateDeterministicRoute_deterministic_witness :
    frozenCollaborators.clock World.start.ticks = frozenCollaborators.clock laterWorld.ticks ∧
    (calculateDeterministicRoute frozenCollaborators (NewΔ2Router []) "Venus" "Jupiter" "n-1"
        World.start).1.Hash =
      (calculateDeterministicRoute frozenCollaborators earthMoonMarsRouter "Venus" "Jupiter"
        "n-1" laterWorld).1.Hash ∧
    (calculateDeterministicRoute frozenCollaborators (NewΔ2Router []) "Venus" "Jupiter" "n-1"
        World.start).1.Path =
      (calculateDeterministicRoute frozenCollaborators earthMoonMarsRouter "Venus" "Jupiter"
        "n-1" laterWorld).1.Path :=
  ⟨rfl, calculateDeterministicRoute_deterministic frozenCollaborators frozenCollaborators
    (NewΔ2Router []) earthMoonMarsRouter "Venus" "Jupiter" "n-1" World.start laterWorld rfl rfl⟩

/-! ### C12: packets without a source or a destination -/

set_option maxRecDepth 8000 in
/-- The sigma of the repository, `0.00001`, is not above the threshold `0.00005` of
the constructor. -/
theorem getCurrentSigma_below_threshold (princeKey : List (Fin 256)) :
    (Float64.round false 1 100000).gt (NewΔ2Router princeKey).sigmaThreshold = false := by
  show (Float64.round false 1 100000).gt (Float64.round false 5 100000) = false
  decide

/-- C12, refuted on the code: a packet whose source and destination are both empty
is routed on a fresh router with the collaborators of the repository; the call
returns a route and no error. -/
theorem RoutePacket_routes_empty_endpoints :
    emptyPacket.SourceNode = "" ∧ emptyPacket.DestinationNode = "" ∧
    ∃ route : Δ2Route,
      (RoutePacket frozenCollaborators (NewΔ2Router []) emptyPacket World.start).result =
        Except.ok route ∧ route.Path = ["Earth", "Moon", "Mars"] :=
  ⟨rfl, rfl, _, RoutePacket_of_stable frozenCollaborators (NewΔ2Router []) emptyPacket
    World.start (Float64.round false 1 100000) rfl rfl (getCurrentSigma_below_threshold []),
    applyInterplanetaryLatency_Path _ _ _⟩

/-- C12 as amended: `RoutePacket` does not inspect the source and the destination; for
a packet with an empty source or destination it returns the attestation error when
the verifier returns an error, and when the verifier returns no error and sigma is
not above the threshold it returns a route, not an error. -/
theorem RoutePacket_empty_endpoints_gated (c : Collaborators) (r : Δ2Router)
    (packet : InterplanetaryPacket) (w : World)
    (_hempty : packet.SourceNode = "" ∨ packet.DestinationNode = "") :
    (∀ err : String,
      (c.verifier r.chainClient packet.SourceNode packet.DestinationNode
        packet.AttestationProof).2 = some err →
      (RoutePacket c r packet w).result = Except.error (RouteError.attestation err)) ∧
    (∀ sigma : Float64,
      (c.verifier r.chainClient packet.SourceNode packet.DestinationNode
        packet.AttestationProof).2 = none →
      c.sigmaSource r = (sigma, none) → sigma.gt r.sigmaThreshold = false →
      ∃ route : Δ2Route, (RoutePacket c r packet w).result = Except.ok route ∧
        route.Path = ["Earth", "Moon", "Mars"]) := by
  constructor
  · intro err herr
    rw [RoutePacket_of_verifier_error c r packet w err herr]
  · intro sigma ha hs hle
    exact ⟨_, RoutePacket_of_stable c r packet w sigma ha hs hle,
      applyInterplanetaryLatency_Path _ _ _⟩

/-- C12 as amended, at a concrete input: the empty packet on a fresh router with the
collaborators of the repository. -/
theorem RoutePacket_empty_endpoints_gated_witness :
    (emptyPacket.SourceNode = "" ∨ emptyPacket.DestinationNode = "") ∧
    ∃ route : Δ2Route,
      (RoutePacket sampleCollaborators (NewΔ2Router []) emptyPacket laterWorld).result =
        Except.ok route ∧ route.Path = ["Earth", "Moon", "Mars"] :=
  ⟨Or.inl rfl, (RoutePacket_empty_endpoints_gated sampleCollaborators (NewΔ2Router [])
    emptyPacket laterWorld (Or.inl rfl)).2 (Float64.round false 1 100000) rfl rfl
    (getCurrentSigma_below_threshold [])⟩

/-! ### C13 and C14: the latency annotation -/

/-- The annotated route is the given route with the latency of the table. -/
theorem applyInterplanetaryLatency_eq (r : Δ2Router) (route : Δ2Route) (priority : String) :
    applyInterplanetaryLatency r route priority =
      { route with Latency :=
          if priority = "emergency" then 1750 * Second
          else if priority = "consciousness" then 2800 * Second
          else if priority = "data" then 3500 * Second
          else 4200 * Second } := by
  unfold applyInterplanetaryLatency
  split_ifs
  · dsimp only
    rw [latency_emergency]
  · dsimp only
    rw [latency_consciousness]
  · rfl
  · dsimp only
    rw [latency_default]

/-- C13: annotating an annotated route again with the same priority changes nothing,
and the latency set depends on the priority alone: it is the same for every router
and every route, whatever latency the route had before. -/
theorem applyInterplanetaryLatency_idempotent (r : Δ2Router) (route : Δ2Route)
    (priority : String) :
    applyInterplanetaryLatency r (applyInterplanetaryLatency r route priority) priority =
      applyInterplanetaryLatency r route priority ∧
    ∀ (r2 : Δ2Router) (route2 : Δ2Route),
      (applyInterplanetaryLatency r2 route2 priority).Latency =
        (applyInterplanetaryLatency r route priority).Latency := by
  constructor
  · rw [applyInterplanetaryLatency_eq r route priority, applyInterplanetaryLatency_eq]
  · intro r2 route2
    rw [applyInterplanetaryLatency_eq r route priority,
      applyInterplanetaryLatency_eq r2 route2 priority]

/-- C14: `applyInterplanetaryLatency` changes the latency alone: path, fingerprint,
stability and TTL of the result are those of the route given. The method returns the
route only and reads nothing of the router (its result is the same on every
router), and the router a `RoutePacket` call runs it on has the same topology,
routing table and sigma threshold after the call. -/
theorem applyInterplanetaryLatency_frame (r : Δ2Router) (route : Δ2Route) (priority : String) :
    (applyInterplanetaryLatency r route priority).Path = route.Path ∧
    (applyInterplanetaryLatency r route priority).Hash = route.Hash ∧
    (applyInterplanetaryLatency r route priority).Stability = route.Stability ∧
    (applyInterplanetaryLatency r route priority).TTL = route.TTL ∧
    (∀ r2 : Δ2Router,
      applyInterplanetaryLatency r2 route priority =
        applyInterplanetaryLatency r route priority) ∧
    ∀ (c : Collaborators) (packet : InterplanetaryPacket) (w : World),
      (RoutePacket c r packet w).router.topology = r.topology ∧
      (RoutePacket c r packet w).router.routingTable = r.routingTable ∧
      (RoutePacket c r packet w).router.sigmaThreshold = r.sigmaThreshold := by
  rw [applyInterplanetaryLatency_eq r route priority]
  refine ⟨rfl, rfl, rfl, rfl, ?_, ?_⟩
  · intro r2
    rw [applyInterplanetaryLatency_eq r2 route priority]
  · intro c packet w
    rw [RoutePacket_router]
    exact ⟨rfl, rfl, rfl⟩

/-! ### C15: the candidate route -/

set_option maxRecDepth 4000 in
/-- The literal `0.99` as a binary64 value: `0x1.fae147ae147aep-1`. -/
theorem Float64.round_stability_literal :
    Float64.round false 99 100 = Float64.finite false 0x1fae147ae147ae (-53) := by
  decide

/-- C15: the candidate route of `calculateDeterministicRoute` has as fingerprint the
Δ2 transformation of the BLAKE3 digest of the canonical string (built on the first
clock reading), as TTL the clock reading taken for it plus 5 minutes, that is 300 s,
a zero latency, and a stability score that is a number between 0 and 1. -/
theorem calculateDeterministicRoute_candidate (c : Collaborators) (r : Δ2Router)
    (source dest nonce : String) (w : World) :
    (calculateDeterministicRoute c r source dest nonce w).1.Hash =
      applyΔ2Transformation
        (c.blake3Sum256 (canonicalString source dest nonce (c.clock w.ticks))) ∧
    (calculateDeterministicRoute c r source dest nonce w).1.TTL =
      c.clock (w.ticks + 1) + 300 * Second ∧
    5 * Minute = 300 * Second ∧
    (calculateDeterministicRoute c r source dest nonce w).1.Latency = 0 ∧
    ∃ q : ℚ, (calculateDeterministicRoute c r source dest nonce w).1.Stability.toRat? = some q ∧
      0 ≤ q ∧ q ≤ 1 := by
  rw [calculateDeterministicRoute_fst]
  refine ⟨rfl, rfl, rfl, rfl, ?_⟩
  refine ⟨(0x1fae147ae147ae : ℚ) * (2 : ℚ) ^ (-53 : Int), ?_, ?_, ?_⟩
  · show (Float64.round false 99 100).toRat? = _
    rw [Float64.round_stability_literal]
    simp [Float64.toRat?]
  · positivity
  · rw [zpow_neg]
    norm_num

/-! ### C17: the router as the repository builds it -/

/-- C17: on a router built by `NewΔ2Router`, with the chain client and the sigma
source of the repository, `RoutePacket` returns a route for every packet (one with
empty source, destination, proof and nonce included), whatever the clock and the
digest function: the path is `["Earth", "Moon", "Mars"]`, the stability is `0.99`
and the latency is that of the packet's priority. -/
theorem RoutePacket_repository_never_fails (clock : Nat → Int)
    (blake3Sum256 : String → Hash32) (princeKey : List (Fin 256))
    (packet : InterplanetaryPacket) (w : World) :
    (RoutePacket (repoCollaborators clock blake3Sum256) (NewΔ2Router princeKey) packet
        w).result =
      Except.ok
        { Path := ["Earth", "Moon", "Mars"]
          Hash := blake3Sum256 (canonicalString packet.SourceNode packet.DestinationNode
            packet.Nonce (clock w.ticks))
          Stability := Float64.round false 99 100
          TTL := clock (w.ticks + 1) + 5 * Minute
          Latency :=
            if packet.Priority = "emergency" then 1750 * Second
            else if packet.Priority = "consciousness" then 2800 * Second
            else if packet.Priority = "data" then 3500 * Second
            else 4200 * Second } ∧
    ∃ route : Δ2Route,
      (RoutePacket (repoCollaborators clock blake3Sum256) (NewΔ2Router princeKey)
        { SourceNode := "", DestinationNode := "", AttestationProof := "", Nonce := "",
          Priority := packet.Priority } w).result = Except.ok route := by
  constructor
  · rw [RoutePacket_of_stable (repoCollaborators clock blake3Sum256) (NewΔ2Router princeKey)
      packet w (Float64.round false 1 100000) rfl rfl
      (getCurrentSigma_below_threshold princeKey), applyInterplanetaryLatency_eq]
    rfl
  · exact ⟨_, RoutePacket_of_stable (repoCollaborators clock blake3Sum256)
      (NewΔ2Router princeKey) _ w (Float64.round false 1 100000) rfl rfl
      (getCurrentSigma_below_threshold princeKey)⟩

/-! ### C16, C18 and C19: the canonical string -/

/-- The character of a decimal digit reads back as the digit. -/
theorem digitChar_toNat : ∀ d < 10, (Char.ofNat (48 + d)).toNat - 48 = d := by
  decide

/-- The character of a decimal digit is neither the separator nor the sign. -/
theorem digitChar_ne : ∀ d < 10, Char.ofNat (48 + d) ≠ ':' ∧ Char.ofNat (48 + d) ≠ '-' := by
  decide

/-- The characters of `formatNat n`, as the decimal digits of `n`, most significant
first; `0` has the single digit `0`. -/
theorem formatNat_data (n : Nat) :
    (formatNat n).data =
      (if n = 0 then [0] else (Nat.digits 10 n).reverse).map fun d => Char.ofNat (48 + d) := by
  unfold formatNat
  split_ifs <;> rfl

/-- Every digit of the list `formatNat` renders is below ten. -/
theorem formatNat_digits_lt (n d : Nat)
    (h : d ∈ (if n = 0 then [0] else (Nat.digits 10 n).reverse)) : d < 10 := by
  split_ifs at h
  · simp only [List.mem_singleton] at h
    omega
  · exact Nat.digits_lt_base (by norm_num) (List.mem_reverse.mp h)

/-- Reading the characters of `formatNat n` back as digits gives `n`. -/
theorem formatNat_roundtrip (n : Nat) :
    Nat.ofDigits 10 (((formatNat n).data.map fun ch => ch.toNat - 48).reverse) = n := by
  rw [formatNat_data, List.map_map]
  have hid : ∀ d ∈ (if n = 0 then [0] else (Nat.digits 10 n).reverse),
      ((fun ch : Char => ch.toNat - 48) ∘ fun d => Char.ofNat (48 + d)) d = id d := by
    intro d hd
    exact digitChar_toNat d (formatNat_digits_lt n d hd)
  rw [List.map_congr_left hid, List.map_id]
  split_ifs with h0
  · simp [h0]
  · rw [List.reverse_reverse, Nat.ofDigits_digits]

/-- The rendering `formatNat` is injective. -/
theorem formatNat_injective (m n : Nat) (h : formatNat m = formatNat n) : m = n := by
  rw [← formatNat_roundtrip m, ← formatNat_roundtrip n, h]

/-- No character of `formatNat n` is the separator or the sign. -/
theorem formatNat_chars (n : Nat) (ch : Char) (h : ch ∈ (formatNat n).data) :
    ch ≠ ':' ∧ ch ≠ '-' := by
  rw [formatNat_data, List.mem_map] at h
  obtain ⟨d, hd, rfl⟩ := h
  exact digitChar_ne d (formatNat_digits_lt n d hd)

/-- The characters of `formatInt`. -/
theorem formatInt_data (z : Int) :
    (formatInt z).data =
      if z < 0 then '-' :: (formatNat z.natAbs).data else (formatNat z.natAbs).data := by
  unfold formatInt
  split_ifs
  · rw [String.data_append]
    rfl
  · rfl

/-- No character of `formatInt z` is the separator. -/
theorem formatInt_no_separator (z : Int) : ':' ∉ (formatInt z).data := by
  intro h
  rw [formatInt_data] at h
  split_ifs at h
  · rcases List.mem_cons.mp h with h1 | h1
    · exact absurd h1 (by decide)
    · exact (formatNat_chars _ _ h1).1 rfl
  · exact (formatNat_chars _ _ h).1 rfl

/-- The rendering `formatInt` is injective. -/
theorem formatInt_injective (y z : Int) (h : formatInt y = formatInt z) : y = z := by
  have hd := congrArg String.data h
  rw [formatInt_data, formatInt_data] at hd
  have hhead : ∀ n : Nat, ∀ rest : List Char, '-' :: rest ≠ (formatNat n).data := by
    intro n rest heq
    have hmem : '-' ∈ (formatNat n).data := by
      rw [← heq]
      exact List.mem_cons_self _ _
    exact (formatNat_chars n _ hmem).2 rfl
  split_ifs at hd with hy hz hz
  · have habs : y.natAbs = z.natAbs :=
      formatNat_injective _ _ (String.ext (List.cons.inj hd).2)
    omega
  · exact absurd hd (hhead _ _)
  · exact absurd hd.symm (hhead _ _)
  · have habs : y.natAbs = z.natAbs := formatNat_injective _ _ (String.ext hd)
    omega

/-- The characters of the canonical string. -/
theorem canonicalString_data (source dest nonce : String) (t : Int) :
    (canonicalString source dest nonce t).data =
      source.data ++ ':' :: (dest.data ++ ':' :: (nonce.data ++ ':' :: (formatInt t).data)) := by
  unfold canonicalString
  simp only [String.data_append, List.append_assoc]
  rfl

/-- A list is cut at its first separator in one way only. -/
theorem split_at_first_separator (a b x y : List Char) (ha : ':' ∉ a) (hb : ':' ∉ b)
    (h : a ++ ':' :: x = b ++ ':' :: y) : a = b ∧ x = y := by
  induction a generalizing b with
  | nil =>
    cases b with
    | nil => exact ⟨rfl, (List.cons.inj h).2⟩
    | cons c cs =>
      have hc : ':' = c := (List.cons.inj h).1
      exact absurd (hc ▸ List.mem_cons_self _ _) hb
  | cons c cs ih =>
    cases b with
    | nil =>
      have hc : c = ':' := (List.cons.inj h).1
      exact absurd (hc ▸ List.mem_cons_self _ _) ha
    | cons e es =>
      have hce := List.cons.inj h
      have hrec := ih es (fun hm => ha (List.mem_cons_of_mem _ hm))
        (fun hm => hb (List.mem_cons_of_mem _ hm)) hce.2
      exact ⟨by rw [hce.1, hrec.1], hrec.2⟩

/-- The invocations `calculateDeterministicRoute` makes, in order. -/
theorem calculateDeterministicRoute_calls (c : Collaborators) (r : Δ2Router)
    (source dest nonce : String) (w : World) :
    (calculateDeterministicRoute c r source dest nonce w).2.calls =
      w.calls ++ [Call.timeNow,
        Call.blake3Sum256 (canonicalString source dest nonce (c.clock w.ticks)),
        Call.applyΔ2Transformation, Call.hashToPath, Call.calculateRouteStability,
        Call.timeNow] := by
  simp [calculateDeterministicRoute, timeNow, World.enter]

/-- C16: for two different nanosecond timestamps the canonical strings built on the
same source, destination and nonce are different; so two runs of
`calculateDeterministicRoute` that differ in the clock alone, reading different
instants, hand different strings to the digest function. -/
theorem canonicalString_differs_on_time (source dest nonce : String) (t1 t2 : Int)
    (h : t1 ≠ t2) :
    canonicalString source dest nonce t1 ≠ canonicalString source dest nonce t2 ∧
    ∀ (c : Collaborators) (r : Δ2Router) (w : World) (clock1 clock2 : Nat → Int),
      clock1 w.ticks = t1 → clock2 w.ticks = t2 →
      (calculateDeterministicRoute { c with clock := clock1 } r source dest nonce w).2.calls ≠
        (calculateDeterministicRoute { c with clock := clock2 } r source dest nonce w).2.calls := by
  have hne : canonicalString source dest nonce t1 ≠ canonicalString source dest nonce t2 := by
    intro heq
    have hd := congrArg String.data heq
    rw [canonicalString_data, canonicalString_data] at hd
    have h1 := List.cons.inj (List.append_cancel_left hd)
    have h2 := List.cons.inj (List.append_cancel_left h1.2)
    have h3 := List.cons.inj (List.append_cancel_left h2.2)
    exact h (formatInt_injective t1 t2 (String.ext h3.2))
  refine ⟨hne, ?_⟩
  intro c r w clock1 clock2 h1 h2 heq
  rw [calculateDeterministicRoute_calls, calculateDeterministicRoute_calls] at heq
  have hl := List.append_cancel_left heq
  simp only [List.cons.injEq, Call.blake3Sum256.injEq, true_and, and_true] at hl
  rw [h1, h2] at hl
  exact hne hl

/-- C16 at concrete inputs: two instants one nanosecond apart. -/
theorem canonicalString_differs_on_time_witness :
    (1700000000000000000 : Int) ≠ 1700000000000000001 ∧
    canonicalString "Venus" "Jupiter" "n-1" 1700000000000000000 ≠
      canonicalString "Venus" "Jupiter" "n-1" 1700000000000000001 :=
  ⟨by decide, (canonicalString_differs_on_time "Venus" "Jupiter" "n-1" 1700000000000000000
    1700000000000000001 (by decide)).1⟩

/-- C18: when the sources and the destinations contain no `':'`, equal canonical
strings come from equal inputs: the same source, destination, nonce (which may
itself contain `':'`) and timestamp. -/
theorem canonicalString_injective (source dest nonce source2 dest2 nonce2 : String)
    (t t2 : Int) (hs : ':' ∉ source.data) (hd : ':' ∉ dest.data)
    (hs2 : ':' ∉ source2.data) (hd2 : ':' ∉ dest2.data)
    (h : canonicalString source dest nonce t = canonicalString source2 dest2 nonce2 t2) :
    source = source2 ∧ dest = dest2 ∧ nonce = nonce2 ∧ t = t2 := by
  have hdata := congrArg String.data h
  rw [canonicalString_data, canonicalString_data] at hdata
  obtain ⟨hsrc, h1⟩ := split_at_first_separator _ _ _ _ hs hs2 hdata
  obtain ⟨hdst, h2⟩ := split_at_first_separator _ _ _ _ hd hd2 h1
  have hrev := congrArg List.reverse h2
  simp only [List.reverse_append, List.reverse_cons, List.append_assoc,
    List.singleton_append] at hrev
  obtain ⟨htime, hnonce⟩ := split_at_first_separator _ _ _ _
    (fun hm => formatInt_no_separator t (List.mem_reverse.mp hm))
    (fun hm => formatInt_no_separator t2 (List.mem_reverse.mp hm)) hrev
  exact ⟨String.ext hsrc, String.ext hdst, String.ext (List.reverse_injective hnonce),
    formatInt_injective t t2 (String.ext (List.reverse_injective htime))⟩

/-- C18 at a concrete input: identifiers without `':'` and a nonce with one. -/
theorem canonicalString_injective_witness :
    ':' ∉ "Venus".data ∧ ':' ∉ "Jupiter".data ∧
    ("Venus" = "Venus" ∧ "Jupiter" = "Jupiter" ∧ "n:1" = "n:1" ∧
      (1700000000000000000 : Int) = 1700000000000000000) :=
  ⟨by decide, by decide,
    canonicalString_injective "Venus" "Jupiter" "n:1" "Venus" "Jupiter" "n:1"
      1700000000000000000 1700000000000000000 (by decide) (by decide) (by decide) (by decide)
      rfl⟩

/-- C19: the canonical string is ambiguous once an identifier may contain `':'`: the
pairs (`"a:b"`, `"c"`) and (`"a"`, `"b:c"`) differ, yet with the same nonce and
timestamp they give the same canonical string, and `calculateDeterministicRoute`
run on them in the same world yields the same fingerprint. -/
theorem canonicalString_ambiguous (nonce : String) (t : Int) (c : Collaborators)
    (r : Δ2Router) (w : World) :
    (("a:b", "c") : String × String) ≠ ("a", "b:c") ∧
    canonicalString "a:b" "c" nonce t = canonicalString "a" "b:c" nonce t ∧
    (calculateDeterministicRoute c r "a:b" "c" nonce w).1.Hash =
      (calculateDeterministicRoute c r "a" "b:c" nonce w).1.Hash := by
  have hstr : ∀ u : Int, canonicalString "a:b" "c" nonce u = canonicalString "a" "b:c" nonce u := by
    intro u
    apply String.ext
    rw [canonicalString_data, canonicalString_data]
    rfl
  refine ⟨by decide, hstr t, ?_⟩
  rw [calculateDeterministicRoute_fst, calculateDeterministicRoute_fst, hstr]

end Blake3Delta2
